import Mathlib

/-!
Verification of the MHM isotope finder core
(`optimized_mhm_isotope_finder.py`, class `OptimizedMHMIsotopeFinder`).

The estimator works over integer proton/neutron counts and real-valued
arithmetic.  Python floats are modelled by `ℝ`; integer `%` is Python's
(sign of the divisor) remainder, which coincides with `Int.emod`.  All
branch conditions of the source are on integers except the
binding-energy-per-nucleon brackets, the decay-mode threshold and the
medical acceptance band, which compare reals.
-/

namespace MHM

/-! ### Calibration constants (from `__init__`) -/

/-- Volume term coefficient `self.av`. -/
noncomputable def av : ℝ := 15.75

/-- Surface term coefficient `self.as_`. -/
noncomputable def as_ : ℝ := 17.8

/-- Coulomb term coefficient `self.ac`. -/
noncomputable def ac : ℝ := 0.711

/-- Asymmetry term coefficient `self.aa`. -/
noncomputable def aa : ℝ := 23.7

/-- Pairing term coefficient `self.ap`. -/
noncomputable def ap : ℝ := 11.18

/-- Magic numbers `self.magic_numbers`. -/
def magic_numbers : List ℤ := [2, 8, 20, 28, 50, 82, 126]

/-- `tesla_folding['resonance_factor']`. -/
noncomputable def resonance_factor : ℝ := 1.05

/-- `tesla_folding['consciousness_level']`. -/
noncomputable def consciousness_level : ℝ := 0.820

/-- `tesla_folding['golden_ratio']` (a literal, not the exact golden ratio). -/
noncomputable def golden_ratio : ℝ := 1.618

/-- `tesla_folding['tesla_numbers']`. -/
def tesla_numbers : List ℤ := [3, 6, 9]

/-- `tesla_folding['error_correction']`. -/
noncomputable def error_correction : ℝ := 0.965

/-- `calibration['stability_threshold']`. -/
noncomputable def stability_threshold : ℝ := 0.5

/-- Lower end of `calibration['medical_range']`. -/
noncomputable def medical_range_min : ℝ := 0.2

/-- Upper end of `calibration['medical_range']`. -/
noncomputable def medical_range_max : ℝ := 0.7

/-- `calibration['binding_energy_scale']`. -/
noncomputable def binding_energy_scale : ℝ := 0.15

/-! ### Light-nuclide binding-energy overrides (`special_cases` in
`calculate_binding_energy`) -/

/-- The five pinned light nuclides: H-1, H-2, H-3, He-3, He-4. -/
noncomputable def special_cases : List ((ℤ × ℤ) × ℝ) :=
  [((1, 0), 0.0), ((1, 1), 2.225), ((1, 2), 8.482), ((2, 1), 7.718), ((2, 2), 28.296)]

/-! ### Binding-energy estimator -/

/-- The Bethe-Weizsäcker sum `volume + surface + coulomb + asymmetry + pairing`
from `calculate_binding_energy`.  The Coulomb, asymmetry and pairing terms are
guarded by `A > 0` exactly as in the source. -/
noncomputable def semi_empirical_base (Z N : ℤ) : ℝ :=
  let A := Z + N
  let volume := av * (A : ℝ)
  let surface := -as_ * (A : ℝ) ^ ((2 : ℝ) / 3)
  let coulomb := if 0 < A then -ac * (Z : ℝ) ^ 2 / (A : ℝ) ^ ((1 : ℝ) / 3) else 0
  let asymmetry := if 0 < A then -aa * ((N : ℝ) - (Z : ℝ)) ^ 2 / (A : ℝ) else 0
  let pairing :=
    if N % 2 = 0 ∧ Z % 2 = 0 then (if 0 < A then ap / Real.sqrt (A : ℝ) else 0)
    else if N % 2 = 1 ∧ Z % 2 = 1 then (if 0 < A then -ap / Real.sqrt (A : ℝ) else 0)
    else 0
  volume + surface + coulomb + asymmetry + pairing

/-- The heavy-nucleus correction: multiply by `1 + 0.15·ln A` when `A > 16`. -/
noncomputable def scaled_base (Z N : ℤ) : ℝ :=
  if 16 < Z + N then
    semi_empirical_base Z N * (1 + binding_energy_scale * Real.log ((Z + N : ℤ) : ℝ))
  else semi_empirical_base Z N

/-- Tesla number resonance: the loop over `tesla_numbers` in
`apply_mhm_enhancement`, multiplying `resonance_factor` in for every modulus
dividing `A`. -/
noncomputable def tesla_boost (A : ℤ) : ℝ :=
  tesla_numbers.foldl (fun acc m => if A % m = 0 then acc * resonance_factor else acc) 1

/-- Golden ratio optimisation factor from `apply_mhm_enhancement`. -/
noncomputable def golden_factor (A : ℤ) : ℝ :=
  1 + 0.01 * Real.sin ((A : ℝ) / golden_ratio)

/-- Consciousness enhancement factor from `apply_mhm_enhancement`. -/
noncomputable def consciousness_boost : ℝ := 1 + consciousness_level * 0.02

/-- `apply_mhm_enhancement(Z, N, base_value)`. -/
noncomputable def apply_mhm_enhancement (Z N : ℤ) (base_value : ℝ) : ℝ :=
  base_value * tesla_boost (Z + N) * golden_factor (Z + N) * consciousness_boost *
    error_correction

/-- `calculate_binding_energy(Z, N)`: consult the light-nuclide override table
when `A ≤ 4`, otherwise the scaled semi-empirical formula followed by the MHM
enhancement layer. -/
noncomputable def calculate_binding_energy (Z N : ℤ) : ℝ :=
  if Z + N ≤ 4 ∧ (special_cases.lookup (Z, N)).isSome = true then
    (special_cases.lookup (Z, N)).getD 0
  else
    apply_mhm_enhancement Z N (scaled_base Z N)

/-- C3: each of the five light-nuclide override keys returns the literal table
value exactly — no heavy-nucleus scaling and no enhancement layer; in
particular `estimateBindingEnergy(2,2) = 28.296` and
`estimateBindingEnergy(1,1) = 2.225`. -/
theorem c3_light_nuclide_overrides :
    calculate_binding_energy 1 0 = 0.0 ∧
    calculate_binding_energy 1 1 = 2.225 ∧
    calculate_binding_energy 1 2 = 8.482 ∧
    calculate_binding_energy 2 1 = 7.718 ∧
    calculate_binding_energy 2 2 = 28.296 :=
  ⟨rfl, rfl, rfl, rfl, rfl⟩

/-! ### Spec-side formulation of the formula path (spec §4.1-§4.2) -/

/-- The semi-empirical sum as the spec words it: volume `av·A`, surface
`−as·A^(2/3)`, Coulomb `−ac·Z²/A^(1/3)` (0 if A=0), asymmetry `−aa·(N−Z)²/A`
(0 if A=0), pairing `±ap/√A` by parity.  Stated independently of the source's
`A > 0` guards so that agreement with `semi_empirical_base` is a real check. -/
noncomputable def semi_empirical_base_spec (Z N : ℤ) : ℝ :=
  av * ((Z + N : ℤ) : ℝ) + -as_ * ((Z + N : ℤ) : ℝ) ^ ((2 : ℝ) / 3) +
    (if Z + N = 0 then 0 else -ac * (Z : ℝ) ^ 2 / ((Z + N : ℤ) : ℝ) ^ ((1 : ℝ) / 3)) +
    (if Z + N = 0 then 0 else -aa * ((N : ℝ) - (Z : ℝ)) ^ 2 / ((Z + N : ℤ) : ℝ)) +
    (if N % 2 = 0 ∧ Z % 2 = 0 then ap / Real.sqrt ((Z + N : ℤ) : ℝ)
      else if N % 2 = 1 ∧ Z % 2 = 1 then -ap / Real.sqrt ((Z + N : ℤ) : ℝ) else 0)

lemma semi_empirical_base_spec_eq (Z N : ℤ) (hZ : 0 ≤ Z) (hN : 0 ≤ N) :
    semi_empirical_base Z N = semi_empirical_base_spec Z N := by
  unfold semi_empirical_base semi_empirical_base_spec
  rcases eq_or_lt_of_le (show (0 : ℤ) ≤ Z + N by omega) with h0 | hpos
  · have hZ0 : Z = 0 := by omega
    have hN0 : N = 0 := by omega
    subst hZ0; subst hN0
    norm_num
  · simp [hpos]
    rw [if_neg (by omega : ¬Z + N = 0), if_neg (by omega : ¬Z + N = 0)]

/-- The loop over `tesla_numbers` is the product of one conditional
`resonance_factor` per modulus. -/
lemma tesla_boost_eq (A : ℤ) :
    tesla_boost A =
      (if A % 3 = 0 then resonance_factor else 1) *
        (if A % 6 = 0 then resonance_factor else 1) *
        (if A % 9 = 0 then resonance_factor else 1) := by
  simp only [tesla_boost, tesla_numbers, List.foldl]
  split_ifs <;> ring

/-- C2: off the override table, the estimator is the semi-empirical sum, scaled
by `1 + 0.15·ln A` exactly when `A > 16`, then multiplied by
`teslaBoost · goldenFactor · consciousnessBoost · errorCorrection`, where
`teslaBoost` stacks one `resonanceFactor` per dividing modulus in `{3,6,9}`
(so A=18 gives `1.05³` and A=17 gives 1), `goldenFactor = 1+0.01·sin(A/1.618)`,
`consciousnessBoost = 1+0.820·0.02` and `errorCorrection = 0.965`. -/
theorem c2_formula_path :
    (∀ Z N : ℤ, 0 ≤ Z → 0 ≤ N → special_cases.lookup (Z, N) = none →
      calculate_binding_energy Z N =
        (if 16 < Z + N then
            semi_empirical_base_spec Z N * (1 + 0.15 * Real.log ((Z + N : ℤ) : ℝ))
          else semi_empirical_base_spec Z N) *
          ((if (Z + N) % 3 = 0 then 1.05 else 1) *
            (if (Z + N) % 6 = 0 then 1.05 else 1) *
            (if (Z + N) % 9 = 0 then 1.05 else 1)) *
          (1 + 0.01 * Real.sin (((Z + N : ℤ) : ℝ) / 1.618)) *
          (1 + 0.820 * 0.02) * 0.965) ∧
    tesla_boost 18 = 1.05 ^ 3 ∧ tesla_boost 17 = 1 := by
  refine ⟨fun Z N hZ hN hnone => ?_, ?_, ?_⟩
  · rw [calculate_binding_energy, if_neg (by simp [hnone])]
    rw [apply_mhm_enhancement, scaled_base, tesla_boost_eq,
      semi_empirical_base_spec_eq Z N hZ hN]
    simp only [golden_factor, consciousness_boost, error_correction,
      resonance_factor, consciousness_level, golden_ratio, binding_energy_scale]
  · rw [tesla_boost_eq]
    norm_num [resonance_factor]
  · rw [tesla_boost_eq]
    norm_num

/-- Witness for C2 at the concrete non-override input (Z,N) = (8,10), A = 18. -/
theorem c2_formula_path_witness :
    special_cases.lookup ((8 : ℤ), (10 : ℤ)) = none ∧
    calculate_binding_energy 8 10 =
      (if 16 < (8 : ℤ) + 10 then
          semi_empirical_base_spec 8 10 * (1 + 0.15 * Real.log (((8 : ℤ) + 10 : ℤ) : ℝ))
        else semi_empirical_base_spec 8 10) *
        ((if ((8 : ℤ) + 10) % 3 = 0 then 1.05 else 1) *
          (if ((8 : ℤ) + 10) % 6 = 0 then 1.05 else 1) *
          (if ((8 : ℤ) + 10) % 9 = 0 then 1.05 else 1)) *
        (1 + 0.01 * Real.sin ((((8 : ℤ) + 10 : ℤ) : ℝ) / 1.618)) *
        (1 + 0.820 * 0.02) * 0.965 :=
  ⟨rfl, c2_formula_path.1 8 10 (by norm_num) (by norm_num) rfl⟩

/-! ### Stability classifier (`calculate_stability`) -/

/-- The stability override table `known_stable`. -/
def known_stable : List ((ℤ × ℤ) × Bool) :=
  [((1, 0), false), ((1, 1), true), ((1, 2), false), ((2, 1), true),
    ((2, 2), true), ((6, 6), true), ((6, 8), false), ((8, 8), true)]

/-- Optimal N/Z ratio, piecewise in Z (identical wording in source and spec). -/
noncomputable def optimal_ratio (Z : ℤ) : ℝ :=
  if Z ≤ 20 then 1.0
  else if Z ≤ 40 then 1.0 + 0.015 * ((Z : ℝ) - 20)
  else 1.0 + 0.6 * ((Z : ℝ) - 20) / 60

/-- The heuristic stability score of `calculate_stability` (the path taken when
the override table misses and `Z ≠ 0`): base 0.5, magic-number bonuses, N/Z
ratio penalty, binding-energy-per-nucleon bracket, heavy-element penalties,
consciousness multiplier, clamp to [0,1]. -/
noncomputable def heuristic_score (Z N : ℤ) : ℝ :=
  let A := Z + N
  let nz_ratio : ℝ := (N : ℝ) / (Z : ℝ)
  let s := (0.5 : ℝ)
  let s := s + (if Z ∈ magic_numbers then (0.25 : ℝ) else 0)
  let s := s + (if N ∈ magic_numbers then (0.25 : ℝ) else 0)
  let s := s - |nz_ratio - optimal_ratio Z| * 0.3
  let be_per_nucleon : ℝ := if 0 < A then calculate_binding_energy Z N / (A : ℝ) else 0
  let s :=
    if be_per_nucleon > 8.5 then s + 0.2
    else if be_per_nucleon > 7.5 then s + 0.1
    else if be_per_nucleon < 6.0 then s - 0.2
    else s
  let s := if 82 < Z then s - 0.3 else s
  let s := if 92 < Z then s - 0.5 else s
  let s := s * (1 + consciousness_level * 0.05)
  max 0 (min 1 s)

/-- The decay-mode chain of `calculate_stability` on the heuristic path; the
score compared against the threshold is the final clamped score. -/
noncomputable def heuristic_decay_mode (Z N : ℤ) : String :=
  if heuristic_score Z N > stability_threshold then "stable"
  else if (N : ℝ) > (Z : ℝ) * 1.5 then "beta_minus"
  else if (Z : ℝ) > (N : ℝ) * 1.2 then "beta_plus"
  else if 82 < Z then "alpha"
  else "radioactive"

/-- `calculate_stability(Z, N)`: override table, then the `Z = 0` sentinel,
then the heuristic score and decay mode. -/
noncomputable def calculate_stability (Z N : ℤ) : ℝ × String :=
  match known_stable.lookup (Z, N) with
  | some stable =>
      (if stable then (0.8 : ℝ) else 0.3, if stable then "stable" else "radioactive")
  | none =>
      if Z = 0 then (0, "impossible")
      else (heuristic_score Z N, heuristic_decay_mode Z N)

/-- C5: each of the eight stability-override keys returns (0.8, "stable") when
marked stable and (0.3, "radioactive") otherwise, bypassing the heuristics;
every non-override input with Z = 0 yields (0.0, "impossible"); in particular
at (6,6) and at (0,5). -/
theorem c5_stability_overrides :
    calculate_stability 1 0 = (0.3, "radioactive") ∧
    calculate_stability 1 1 = (0.8, "stable") ∧
    calculate_stability 1 2 = (0.3, "radioactive") ∧
    calculate_stability 2 1 = (0.8, "stable") ∧
    calculate_stability 2 2 = (0.8, "stable") ∧
    calculate_stability 6 6 = (0.8, "stable") ∧
    calculate_stability 6 8 = (0.3, "radioactive") ∧
    calculate_stability 8 8 = (0.8, "stable") ∧
    (∀ N : ℤ, calculate_stability 0 N = (0, "impossible")) ∧
    calculate_stability 0 5 = (0, "impossible") :=
  ⟨rfl, rfl, rfl, rfl, rfl, rfl, rfl, rfl, fun _ => rfl, rfl⟩

/-- The clamped heuristic score lies in [0,1]. -/
lemma heuristic_score_bounds (Z N : ℤ) :
    0 ≤ heuristic_score Z N ∧ heuristic_score Z N ≤ 1 := by
  unfold heuristic_score
  exact ⟨le_max_left 0 _, max_le (by norm_num) (min_le_left _ _)⟩

/-- C6: for Z ≥ 1 and N ≥ 0 the returned stability score lies in [0,1] on
every path (override values 0.8/0.3, and the clamped heuristic score). -/
theorem c6_score_in_unit_interval (Z N : ℤ) (hZ : 1 ≤ Z) (hN : 0 ≤ N) :
    0 ≤ (calculate_stability Z N).1 ∧ (calculate_stability Z N).1 ≤ 1 := by
  cases h : known_stable.lookup (Z, N) with
  | none =>
      simp only [calculate_stability, h, if_neg (by omega : ¬Z = 0)]
      exact heuristic_score_bounds Z N
  | some b =>
      simp only [calculate_stability, h]
      cases b <;> norm_num

/-- Witness for C6 at (Z, N) = (3, 4). -/
theorem c6_score_in_unit_interval_witness :
    (0 : ℝ) ≤ (calculate_stability 3 4).1 ∧ (calculate_stability 3 4).1 ≤ 1 :=
  c6_score_in_unit_interval 3 4 (by norm_num) (by norm_num)

/-! ### Spec-side formulation of the heuristic path (spec §4.3, claim C4) -/

/-- The single binding-energy-per-nucleon adjustment, in priority order, as the
claim words it: +0.2 if > 8.5, else +0.1 if > 7.5, else −0.2 if < 6.0, else 0,
with bePerNucleon = estimate(Z,N)/A. -/
noncomputable def be_adjustment_spec (Z N : ℤ) : ℝ :=
  if calculate_binding_energy Z N / ((Z + N : ℤ) : ℝ) > 8.5 then 0.2
  else if calculate_binding_energy Z N / ((Z + N : ℤ) : ℝ) > 7.5 then 0.1
  else if calculate_binding_energy Z N / ((Z + N : ℤ) : ℝ) < 6.0 then -0.2
  else 0

/-- The stability score as the claim words it: start at 0.5, magic bonuses,
ratio penalty, one bracket adjustment, heavy penalties (cumulative −0.8 beyond
Z = 92), multiply by `1 + 0.820·0.05`, clamp to [0,1]. -/
noncomputable def stability_score_spec (Z N : ℤ) : ℝ :=
  max 0 (min 1
    ((0.5 + (if Z ∈ magic_numbers then 0.25 else 0) + (if N ∈ magic_numbers then 0.25 else 0)
        - 0.3 * |(N : ℝ) / (Z : ℝ) - optimal_ratio Z|
        + be_adjustment_spec Z N
        - (if 82 < Z then 0.3 else 0) - (if 92 < Z then 0.5 else 0)) *
      (1 + 0.820 * 0.05)))

/-- The decay-mode label as the claim words it, first matching rule wins. -/
noncomputable def decay_mode_spec (Z N : ℤ) : String :=
  if stability_score_spec Z N > 0.5 then "stable"
  else if (N : ℝ) > 1.5 * (Z : ℝ) then "beta_minus"
  else if (Z : ℝ) > 1.2 * (N : ℝ) then "beta_plus"
  else if 82 < Z then "alpha"
  else "radioactive"

set_option maxHeartbeats 1000000 in
lemma heuristic_score_eq_spec (Z N : ℤ) (hA : 0 < Z + N) :
    heuristic_score Z N = stability_score_spec Z N := by
  simp only [heuristic_score, stability_score_spec, be_adjustment_spec,
    consciousness_level, if_pos hA]
  refine congrArg (fun t => max (0 : ℝ) (min 1 t)) ?_
  split_ifs <;> ring

lemma heuristic_decay_mode_eq_spec (Z N : ℤ) (hA : 0 < Z + N) :
    heuristic_decay_mode Z N = decay_mode_spec Z N := by
  unfold heuristic_decay_mode decay_mode_spec stability_threshold
  rw [heuristic_score_eq_spec Z N hA, mul_comm (1.5 : ℝ) ((Z : ℝ)),
    mul_comm (1.2 : ℝ) ((N : ℝ))]

/-- C4: off the stability-override table and for Z ≥ 1, the classifier returns
exactly the claimed score (base 0.5, magic bonuses, ratio penalty, one
prioritised binding-energy bracket adjustment, cumulative heavy penalties,
consciousness multiplier, clamp) paired with the claimed first-match decay
label. -/
theorem c4_heuristic_path (Z N : ℤ) (hZ : 1 ≤ Z) (hN : 0 ≤ N)
    (hnone : known_stable.lookup (Z, N) = none) :
    calculate_stability Z N = (stability_score_spec Z N, decay_mode_spec Z N) := by
  simp only [calculate_stability, hnone, if_neg (by omega : ¬Z = 0)]
  rw [heuristic_score_eq_spec Z N (by omega), heuristic_decay_mode_eq_spec Z N (by omega)]

/-- Witness for C4 at the concrete non-override input (Z, N) = (3, 4). -/
theorem c4_heuristic_path_witness :
    known_stable.lookup ((3 : ℤ), (4 : ℤ)) = none ∧
    calculate_stability 3 4 = (stability_score_spec 3 4, decay_mode_spec 3 4) :=
  ⟨rfl, c4_heuristic_path 3 4 (by norm_num) (by norm_num) rfl⟩

/-! ### Accuracy validator (`validate_against_known_values`) -/

/-- The fixed reference set `known_binding_energies` (insertion order). -/
noncomputable def known_binding_energies : List (String × ℝ) :=
  [("He-4", 28.296), ("C-12", 92.162), ("O-16", 127.619),
    ("Fe-56", 492.254), ("U-235", 1783.9), ("U-238", 1801.7)]

/-- The isotope-name parsing chain of `validate_against_known_values`
(`if`/`elif` ladder; an unrecognised name is skipped via `continue`). -/
def isotope_ZN (name : String) : Option (ℤ × ℤ) :=
  if name = "He-4" then some (2, 2)
  else if name = "C-12" then some (6, 6)
  else if name = "O-16" then some (8, 8)
  else if name = "Fe-56" then some (26, 30)
  else if name = "U-235" then some (92, 143)
  else if name = "U-238" then some (92, 146)
  else none

/-- One entry of `validation_results`. -/
structure ValidationRecord where
  isotope : String
  real_be : ℝ
  calculated_be : ℝ
  error_percent : ℝ

/-- The `validation_results` list built by `validate_against_known_values`. -/
noncomputable def validation_results : List ValidationRecord :=
  known_binding_energies.filterMap (fun p =>
    match isotope_ZN p.1 with
    | none => none
    | some zn =>
        some { isotope := p.1, real_be := p.2,
               calculated_be := calculate_binding_energy zn.1 zn.2,
               error_percent := |calculate_binding_energy zn.1 zn.2 - p.2| / p.2 * 100 })

/-- `avg_error = np.mean([r['error_percent'] for r in validation_results])`. -/
noncomputable def average_error : ℝ :=
  (validation_results.map (fun r => r.error_percent)).sum /
    (validation_results.length : ℝ)

/-- C8: the validator produces exactly 6 records over the fixed reference set,
each with `percentError = |estimated − reference| / reference × 100`, and the
reported average is the arithmetic mean of the six percent errors; every
reference value is strictly positive, so no entry needs the zero-reference
exclusion and no division fault can occur. -/
theorem c8_validator_records :
    validation_results =
      [⟨"He-4", 28.296, calculate_binding_energy 2 2,
          |calculate_binding_energy 2 2 - 28.296| / 28.296 * 100⟩,
        ⟨"C-12", 92.162, calculate_binding_energy 6 6,
          |calculate_binding_energy 6 6 - 92.162| / 92.162 * 100⟩,
        ⟨"O-16", 127.619, calculate_binding_energy 8 8,
          |calculate_binding_energy 8 8 - 127.619| / 127.619 * 100⟩,
        ⟨"Fe-56", 492.254, calculate_binding_energy 26 30,
          |calculate_binding_energy 26 30 - 492.254| / 492.254 * 100⟩,
        ⟨"U-235", 1783.9, calculate_binding_energy 92 143,
          |calculate_binding_energy 92 143 - 1783.9| / 1783.9 * 100⟩,
        ⟨"U-238", 1801.7, calculate_binding_energy 92 146,
          |calculate_binding_energy 92 146 - 1801.7| / 1801.7 * 100⟩] ∧
    validation_results.length = 6 ∧
    average_error =
      (|calculate_binding_energy 2 2 - 28.296| / 28.296 * 100 +
        |calculate_binding_energy 6 6 - 92.162| / 92.162 * 100 +
        |calculate_binding_energy 8 8 - 127.619| / 127.619 * 100 +
        |calculate_binding_energy 26 30 - 492.254| / 492.254 * 100 +
        |calculate_binding_energy 92 143 - 1783.9| / 1783.9 * 100 +
        |calculate_binding_energy 92 146 - 1801.7| / 1801.7 * 100) / 6 ∧
    List.Forall (fun p => 0 < p.2) known_binding_energies := by
  have hlist : validation_results =
      [⟨"He-4", 28.296, calculate_binding_energy 2 2,
          |calculate_binding_energy 2 2 - 28.296| / 28.296 * 100⟩,
        ⟨"C-12", 92.162, calculate_binding_energy 6 6,
          |calculate_binding_energy 6 6 - 92.162| / 92.162 * 100⟩,
        ⟨"O-16", 127.619, calculate_binding_energy 8 8,
          |calculate_binding_energy 8 8 - 127.619| / 127.619 * 100⟩,
        ⟨"Fe-56", 492.254, calculate_binding_energy 26 30,
          |calculate_binding_energy 26 30 - 492.254| / 492.254 * 100⟩,
        ⟨"U-235", 1783.9, calculate_binding_energy 92 143,
          |calculate_binding_energy 92 143 - 1783.9| / 1783.9 * 100⟩,
        ⟨"U-238", 1801.7, calculate_binding_energy 92 146,
          |calculate_binding_energy 92 146 - 1801.7| / 1801.7 * 100⟩] := rfl
  refine ⟨hlist, by rw [hlist]; rfl, ?_, ?_⟩
  · rw [average_error, hlist]
    simp only [List.map, List.sum_cons, List.sum_nil, List.length_cons, List.length_nil]
    push_cast
    ring
  · simp only [known_binding_energies, List.Forall]
    norm_num

/-! ### Claim C1: absence of negative-input rejection -/

/-- C1 failing input: the source rejects nothing — at (Z, N) = (−1, 2) the
estimator performs the full semi-empirical arithmetic and returns a real
value instead of raising an invalid-input error. -/
theorem c1_negative_input_not_rejected :
    calculate_binding_energy (-1) 2 =
      (15.75 - 17.8 - 0.711 - 213.3) * (1 + 0.01 * Real.sin (1 / 1.618)) *
        (1 + 0.820 * 0.02) * 0.965 := by
  rw [calculate_binding_energy, if_neg (by simp [special_cases])]
  rw [apply_mhm_enhancement, scaled_base, if_neg (by norm_num), semi_empirical_base]
  norm_num [tesla_boost, tesla_numbers, golden_factor, consciousness_boost,
    error_correction, av, as_, ac, aa, ap, resonance_factor, golden_ratio,
    consciousness_level, Real.one_rpow]

/-! ### Medical isotope search (`find_medical_isotopes`) -/

/-- The element sweep table `elements_to_check` (insertion order). -/
def elements_to_check : List (String × ℤ) :=
  [("F", 9), ("Tc", 43), ("I", 53), ("Co", 27), ("Lu", 71), ("Y", 39),
    ("Re", 75), ("Sm", 62), ("Ho", 67), ("Er", 68)]

/-- The `known_medical` table, keyed by (element symbol, mass number); only the
`'use'` field is ever read, so the value is the use label. -/
def known_medical : List ((String × ℤ) × String) :=
  [(("F", 18), "PET imaging"), (("Tc", 99), "SPECT imaging"),
    (("I", 131), "Thyroid treatment"), (("Co", 60), "Radiation therapy"),
    (("Lu", 177), "Cancer therapy"), (("Y", 90), "Liver cancer")]

/-- Python `range(a, b)` over integers (step 1, half-open). -/
def int_range (a b : ℤ) : List ℤ :=
  (List.range (b - a).toNat).map (fun (i : ℕ) => a + (i : ℤ))

lemma mem_int_range (a b n : ℤ) : n ∈ int_range a b ↔ a ≤ n ∧ n < b := by
  simp only [int_range, List.mem_map, List.mem_range]
  constructor
  · rintro ⟨i, hi, rfl⟩
    omega
  · intro h
    exact ⟨(n - a).toNat, by omega, by omega⟩

/-- One candidate record built inside the search loop. -/
structure Isotope where
  symbol : String
  Z : ℤ
  N : ℤ
  A : ℤ
  stability : ℝ
  decay_mode : String
  binding_energy : ℝ
  half_life_hours : ℝ
  is_known_medical : Bool
  medical_use : String
  mhm_optimized : Bool

/-- The acceptance test of the loop: computed stability strictly inside the
medical band, or a known medical isotope. -/
noncomputable def accept_medical (element : String) (Z N : ℤ) : Bool :=
  decide (medical_range_min < (calculate_stability Z N).1 ∧
      (calculate_stability Z N).1 < medical_range_max) ||
    (known_medical.lookup (element, Z + N)).isSome

/-- The record built for an accepted candidate: stability forced to 0.4 for a
known medical isotope (after the decay mode was computed), half-life from the
possibly-forced stability. -/
noncomputable def make_isotope (element : String) (Z N : ℤ) : Isotope :=
  let A := Z + N
  let stability0 := (calculate_stability Z N).1
  let decay_mode := (calculate_stability Z N).2
  let is_known := (known_medical.lookup (element, A)).isSome
  let stability := if is_known then (0.4 : ℝ) else stability0
  let half_life_hours :=
    if stability > 0 then Real.exp (10 * stability) / 100 else 0.1
  { symbol := element ++ "-" ++ toString A, Z := Z, N := N, A := A,
    stability := stability, decay_mode := decay_mode,
    binding_energy := calculate_binding_energy Z N,
    half_life_hours := half_life_hours, is_known_medical := is_known,
    medical_use := (known_medical.lookup (element, A)).getD "Research",
    mhm_optimized := true }

/-- All accepted candidates, in loop order (elements in table order, N
ascending over `range(Z-10, Z+20)`). -/
noncomputable def medical_candidates : List Isotope :=
  elements_to_check.flatMap (fun p =>
    ((int_range (p.2 - 10) (p.2 + 20)).filter (fun N => accept_medical p.1 p.2 N)).map
      (fun N => make_isotope p.1 p.2 N))

/-- Sort rank of `key=lambda x: (not x['is_known_medical'], ...)`: Python's
`False < True` becomes 0 < 1. -/
def med_rank (c : Isotope) : ℕ := if c.is_known_medical then 0 else 1

/-- Tie-break component `abs(x['stability'] - 0.4)` of the sort key. -/
noncomputable def med_dev (c : Isotope) : ℝ := |c.stability - 0.4|

/-- The lexicographic sort-key order of `medical_isotopes.sort`. -/
noncomputable def med_le (a b : Isotope) : Bool :=
  decide (med_rank a < med_rank b ∨
    (med_rank a = med_rank b ∧ med_dev a ≤ med_dev b))

lemma med_le_trans (a b c : Isotope) (hab : med_le a b = true)
    (hbc : med_le b c = true) : med_le a c = true := by
  simp only [med_le, decide_eq_true_eq] at hab hbc ⊢
  rcases hab with h | ⟨h1, h2⟩ <;> rcases hbc with h' | ⟨h1', h2'⟩
  · exact Or.inl (h.trans h')
  · exact Or.inl (by omega)
  · exact Or.inl (by omega)
  · exact Or.inr ⟨h1.trans h1', h2.trans h2'⟩

lemma med_le_total (a b : Isotope) : (med_le a b || med_le b a) = true := by
  simp only [med_le, Bool.or_eq_true, decide_eq_true_eq]
  rcases lt_trichotomy (med_rank a) (med_rank b) with h | h | h
  · exact Or.inl (Or.inl h)
  · rcases le_total (med_dev a) (med_dev b) with h' | h'
    · exact Or.inl (Or.inr ⟨h, h'⟩)
    · exact Or.inr (Or.inr ⟨h.symm, h'⟩)
  · exact Or.inr (Or.inl h)

/-- The returned list: stable sort by the medical-relevance key, first 20. -/
noncomputable def find_medical_isotopes : List Isotope :=
  (medical_candidates.mergeSort med_le).take 20

lemma make_isotope_is_known (e : String) (Z N : ℤ) :
    (make_isotope e Z N).is_known_medical =
      (known_medical.lookup (e, Z + N)).isSome := rfl

lemma make_isotope_known_stability (e : String) (Z N : ℤ)
    (h : (known_medical.lookup (e, Z + N)).isSome = true) :
    (make_isotope e Z N).stability = 0.4 := by
  simp only [make_isotope, h, if_true]

/-- C7: the search sweeps N over the half-open window [Z−10, Z+20) for each
element, returns at most 20 candidates, every returned candidate flagged
known-medical has stability exactly 0.4, and the returned list is sorted by
the key (known-medical first, then |stability − 0.4| ascending). -/
theorem c7_medical_search :
    (∀ z n : ℤ, n ∈ int_range (z - 10) (z + 20) ↔ z - 10 ≤ n ∧ n < z + 20) ∧
    find_medical_isotopes.length ≤ 20 ∧
    List.Forall (fun c => c.is_known_medical = false ∨ c.stability = 0.4)
      find_medical_isotopes ∧
    List.Sorted (fun a b => med_le a b = true) find_medical_isotopes := by
  refine ⟨fun z n => mem_int_range _ _ _, ?_, ?_, ?_⟩
  · rw [find_medical_isotopes, List.length_take]
    exact min_le_left _ _
  · rw [List.forall_iff_forall_mem]
    intro c hc
    have hc' : c ∈ medical_candidates :=
      List.mem_mergeSort.mp
        (List.take_subset 20 (medical_candidates.mergeSort med_le) hc)
    rcases List.mem_flatMap.mp hc' with ⟨p, hp, hcp⟩
    rcases List.mem_map.mp hcp with ⟨n, hn, rfl⟩
    cases hk : (known_medical.lookup (p.1, p.2 + n)).isSome with
    | false => exact Or.inl ((make_isotope_is_known p.1 p.2 n).trans hk)
    | true => exact Or.inr (make_isotope_known_stability p.1 p.2 n hk)
  · exact List.Pairwise.sublist (List.take_sublist _ _)
      (List.sorted_mergeSort med_le_trans med_le_total medical_candidates)

/-- C10: forcing a known-medical candidate's stability to 0.4 does not
recompute the decay-mode label (it remains the one derived from the original
computed score), the half-life is computed from the forced value and equals
`exp(10·0.4)/100 = exp 4/100`, and every other field is unchanged. -/
theorem c10_known_medical_forcing (e : String) (Z N : ℤ)
    (h : (known_medical.lookup (e, Z + N)).isSome = true) :
    make_isotope e Z N =
      { symbol := e ++ "-" ++ toString (Z + N), Z := Z, N := N, A := Z + N,
        stability := 0.4,
        decay_mode := (calculate_stability Z N).2,
        binding_energy := calculate_binding_energy Z N,
        half_life_hours := Real.exp 4 / 100,
        is_known_medical := true,
        medical_use := (known_medical.lookup (e, Z + N)).getD "Research",
        mhm_optimized := true } := by
  simp only [make_isotope, h, if_true]
  rw [if_pos (by norm_num : (0.4 : ℝ) > 0)]
  norm_num

/-- Witness for C10 at the known medical isotope F-18 (Z = 9, N = 9). -/
theorem c10_known_medical_forcing_witness :
    (known_medical.lookup (("F" : String), (9 : ℤ) + 9)).isSome = true ∧
    make_isotope "F" 9 9 =
      { symbol := "F" ++ "-" ++ toString ((9 : ℤ) + 9), Z := 9, N := 9,
        A := (9 : ℤ) + 9,
        stability := 0.4,
        decay_mode := (calculate_stability 9 9).2,
        binding_energy := calculate_binding_energy 9 9,
        half_life_hours := Real.exp 4 / 100,
        is_known_medical := true,
        medical_use := (known_medical.lookup (("F" : String), (9 : ℤ) + 9)).getD "Research",
        mhm_optimized := true } :=
  ⟨rfl, c10_known_medical_forcing "F" 9 9 rfl⟩

/-! ### Claim C9: the sweep reaches N = −1 for fluorine and both estimators
evaluate it totally -/

lemma golden_factor_pos (A : ℤ) : 0 < golden_factor A := by
  have h := Real.neg_one_le_sin ((A : ℝ) / golden_ratio)
  rw [golden_factor]
  nlinarith [h]

lemma consciousness_boost_pos : (0 : ℝ) < consciousness_boost := by
  norm_num [consciousness_boost, consciousness_level]

lemma error_correction_pos : (0 : ℝ) < error_correction := by
  norm_num [error_correction]

lemma tesla_boost_eight : tesla_boost 8 = 1 := by
  rw [tesla_boost_eq]
  norm_num

lemma semi_base_nine_negone_neg : semi_empirical_base 9 (-1) < 0 := by
  simp only [semi_empirical_base]
  norm_num [av, as_, ac, aa, ap]
  have h1 : (0 : ℝ) ≤ 17.8 * (8 : ℝ) ^ ((2 : ℝ) / 3) := by positivity
  have h2 : (0 : ℝ) ≤ 0.711 * 81 / (8 : ℝ) ^ ((1 : ℝ) / 3) := by positivity
  have h3 : (0 : ℝ) ≤ 11.18 / Real.sqrt 8 := by positivity
  ring_nf at h1 h2 h3 ⊢
  linarith

lemma be_nine_negone_eq :
    calculate_binding_energy 9 (-1) =
      semi_empirical_base 9 (-1) * tesla_boost 8 * golden_factor 8 *
        consciousness_boost * error_correction := by
  rw [calculate_binding_energy, if_neg (by norm_num), apply_mhm_enhancement,
    scaled_base, if_neg (by norm_num)]
  norm_num

lemma be_nine_negone_neg : calculate_binding_energy 9 (-1) < 0 := by
  rw [be_nine_negone_eq, tesla_boost_eight, mul_one]
  exact mul_neg_of_neg_of_pos
    (mul_neg_of_neg_of_pos
      (mul_neg_of_neg_of_pos semi_base_nine_negone_neg (golden_factor_pos 8))
      consciousness_boost_pos)
    error_correction_pos

lemma stability_nine_negone : calculate_stability 9 (-1) = (0, "beta_plus") := by
  have hl : known_stable.lookup ((9 : ℤ), (-1 : ℤ)) = none := rfl
  have hA : (0 : ℤ) < 9 + -1 := by norm_num
  simp only [calculate_stability, hl, if_neg (by norm_num : ¬(9 : ℤ) = 0)]
  rw [heuristic_score_eq_spec 9 (-1) hA, heuristic_decay_mode_eq_spec 9 (-1) hA]
  have hbpn : calculate_binding_energy 9 (-1) / (((9 : ℤ) + (-1 : ℤ) : ℤ) : ℝ) < 0 :=
    div_neg_of_neg_of_pos be_nine_negone_neg (by norm_num)
  have hadj : be_adjustment_spec 9 (-1) = -0.2 := by
    rw [be_adjustment_spec, if_neg (by push_cast at hbpn ⊢; linarith),
      if_neg (by push_cast at hbpn ⊢; linarith), if_pos (by push_cast at hbpn ⊢; linarith)]
  have habs : |((-1 : ℤ) : ℝ) / ((9 : ℤ) : ℝ) - optimal_ratio 9| = 10 / 9 := by
    rw [optimal_ratio, if_pos (by norm_num : (9 : ℤ) ≤ 20)]
    rw [abs_of_nonpos (by norm_num)]
    norm_num
  have hscore : stability_score_spec 9 (-1) = 0 := by
    rw [stability_score_spec, hadj, habs]
    norm_num [magic_numbers, min_def, max_def]
  have hmode : decay_mode_spec 9 (-1) = "beta_plus" := by
    rw [decay_mode_spec, hscore]
    norm_num
  rw [Prod.mk.injEq]
  exact ⟨hscore, hmode⟩

/-- C9: the fluorine entry of the element table has Z = 9, its sweep window
`range(Z−10, Z+20)` contains N = −1, and both estimators evaluate this
negative neutron count totally: the binding energy is a (negative) real and
the classifier returns the definite pair (0, "beta_plus") — no guard rejects
N < 0 and no error branch exists. -/
theorem c9_sweep_hits_negative_neutron_count :
    (("F", (9 : ℤ)) ∈ elements_to_check) ∧
    ((-1 : ℤ) ∈ int_range (9 - 10) (9 + 20)) ∧
    calculate_binding_energy 9 (-1) < 0 ∧
    calculate_stability 9 (-1) = (0, "beta_plus") := by
  refine ⟨by simp [elements_to_check], ?_, be_nine_negone_neg, stability_nine_negone⟩
  rw [mem_int_range]
  norm_num

end MHM
